import Mathlib

/-!
Verification of the deterministic triage decision engine of the dispatch-agent
repository (backend/app/core/preprocessing.py, backend/app/core/decision.py and
the preprocessing portion of backend/app/main.py execute).

Strings are modelled as Lean `String`/`List Char` with ASCII semantics for
Python's `str.lower`, `str.strip`, substring containment (`in`), lexicographic
comparison, and the specific regular expressions used by the source (which are
embedded as explicit scanning functions with the same leftmost-match and
greedy/backtracking behaviour).  Python floats are modelled as exact rationals
(`ℚ`); `round(x, 2)` is modelled by `round2` below.  None of the verified
properties depends on float rounding error or on tie-breaking of `round`.
-/

namespace Dispatch

/-! ### ASCII character classes and string helpers (Python `str` semantics) -/

def isSpaceChar (c : Char) : Bool :=
  c = ' ' || c = '\t' || c = '\n' || c = '\r' || c = '\x0b' || c = '\x0c'

def isDigitChar (c : Char) : Bool := '0' ≤ c && c ≤ '9'

def isLowerAlpha (c : Char) : Bool := 'a' ≤ c && c ≤ 'z'

def isUpperAlpha (c : Char) : Bool := 'A' ≤ c && c ≤ 'Z'

def isAlphaChar (c : Char) : Bool := isLowerAlpha c || isUpperAlpha c

/-- Regex word character (`\w`): letters, digits, underscore. -/
def isWordChar (c : Char) : Bool := isAlphaChar c || isDigitChar c || c = '_'

def lowerChar (c : Char) : Char :=
  if isUpperAlpha c then Char.ofNat (c.toNat + 32) else c

def upperChar (c : Char) : Char :=
  if isLowerAlpha c then Char.ofNat (c.toNat - 32) else c

/-- Python `str.lower` (ASCII). -/
def lowerL (s : List Char) : List Char := s.map lowerChar

/-- Python `str.upper` (ASCII). -/
def upperL (s : List Char) : List Char := s.map upperChar

/-- Python `str.strip` (ASCII whitespace). -/
def stripL (s : List Char) : List Char :=
  ((s.dropWhile isSpaceChar).reverse.dropWhile isSpaceChar).reverse

/-- `isPre pat t`: `pat` is a prefix of `t`. -/
def isPre : List Char → List Char → Bool
  | [], _ => true
  | _ :: _, [] => false
  | a :: as, b :: bs => a = b && isPre as bs

/-- Python substring containment: `hasSub pat t` is `pat in t`. -/
def hasSub (pat : List Char) : List Char → Bool
  | [] => isPre pat []
  | c :: rest => isPre pat (c :: rest) || hasSub pat rest

/-- `pat in t` for any of the given phrases (Python `any(p in t for p in ...)`). -/
def hasAnySub (t : List Char) (pats : List String) : Bool :=
  pats.any fun p => hasSub p.data t

/-- Remaining input after consuming `pat` as a prefix, if it is one. -/
def dropPre : List Char → List Char → Option (List Char)
  | [], t => some t
  | _ :: _, [] => none
  | a :: as, b :: bs => if a = b then dropPre as bs else none

/-- Regex `\b` at a position whose neighbour towards the pattern is a word
character: holds iff the character on the other side is absent or non-word. -/
def boundaryOk : Option Char → Bool
  | none => true
  | some c => !isWordChar c

/-- Core of `contains_kw` / `re.search(rf"\b{kw}\b", t)` for keywords that
start and end with word characters (every keyword in the source does).
`prev` is the character before the current position. -/
def kwSearchGo (kw : List Char) (prev : Option Char) : List Char → Bool
  | [] => false
  | c :: rest =>
    (boundaryOk prev &&
      (match dropPre kw (c :: rest) with
       | some rest2 => boundaryOk rest2.head?
       | none => false))
    || kwSearchGo kw (some c) rest

/-- `contains_kw(t, kw)` from preprocessing.py: whole-word search of `kw`
in `t` (word-boundary matching). -/
def containsKw (t kw : List Char) : Bool := kwSearchGo kw none t

/-- Python lexicographic `<` on strings (code-point order). -/
def strLtL : List Char → List Char → Bool
  | [], [] => false
  | [], _ :: _ => true
  | _ :: _, [] => false
  | a :: as, b :: bs => if a = b then strLtL as bs else decide (a < b)

/-- Python lexicographic `<=` on strings. -/
def strLeL (a b : List Char) : Bool := !strLtL b a

/-- Python truthiness of an optional string: `None` and `""` are falsy. -/
def pyTruthy (o : Option String) : Bool := !(o.getD "").isEmpty

/-! ### preprocessing.py — `classify_category`

The source defines `classify_category` twice with identical bodies; the later
definition (the one in effect) is embedded.  Python dicts iterate in insertion
order, so `CATEGORY_KEYWORDS` is an ordered association list and
`max(scores, key=scores.get)` is `pickTop` (first key attaining the maximal
value). -/

def environmentalKeywords : List String :=
  ["gas smell", "strong gas smell", "gas leak", "natural gas", "rotten egg",
   "chemical smell", "chemical odor", "fumes", "vapors",
   "carbon monoxide", "co alarm",
   "smoke", "fire", "explosion",
   "sparking", "live wire", "downed wire"]

def vagueOnlyPhrases : List String :=
  ["feels off", "something weird", "not sure who handles", "not sure",
   "vibe", "weird", "strange", "odd", "maybe", "might be", "i think", "kinda", "sort of"]

def publicSafetyKeywords : List String :=
  ["suspicious", "loitering", "staring",
   "following", "harassing",
   "fight", "assault", "robbery",
   "breaking in", "break in",
   "weapon", "gun", "knife",
   "shots fired", "shooting", "gunfire", "stabbing", "stabbed"]

/-- The compound `property_in_progress` heuristic of `classify_category`. -/
def propertyInProgress (t : List Char) : Bool :=
  (hasSub "door".data t && hasAnySub t ["handle", "knob"]
     && hasAnySub t ["try", "trying", "check", "checking", "jiggle", "pull"])
  || (hasSub "car".data t
     && hasAnySub t ["break", "breaking", "tamper", "tampering", "smash"])
  || (hasSub "parked car".data t
     && hasAnySub t ["look", "looking", "peering", "checking"])
  || hasSub "trying door handles".data t

/-- `CATEGORY_KEYWORDS`, in the source's (dict insertion) order. -/
def CATEGORY_KEYWORDS : List (String × List String) :=
  [("noise", ["loud", "noise", "party", "music", "shouting"]),
   ("sanitation", ["trash", "garbage", "rats", "dumping", "litter"]),
   ("parking", ["blocked", "parking", "car", "vehicle", "double parked", "tow"]),
   ("street", ["pothole", "streetlight", "traffic light", "sidewalk", "road"]),
   ("water", ["leak", "water", "sewer", "flood", "hydrant"]),
   ("safety", ["gun", "violence", "assault", "threat", "fight",
               "gas smell", "gas leak", "chemical smell", "chemical odor",
               "fumes", "vapors", "carbon monoxide", "co alarm"])]

/-- `sum(1 for kw in kws if contains_kw(t, kw))`. -/
def catScore (t : List Char) (kws : List String) : Nat :=
  (kws.filter fun kw => containsKw t kw.data).length

/-- The `scores` dict of `classify_category`, in insertion order. -/
def scoresOf (t : List Char) : List (String × Nat) :=
  CATEGORY_KEYWORDS.map fun p => (p.1, catScore t p.2)

/-- Accumulator loop behind `max(d, key=d.get)`: keeps the earliest entry with
the (strictly) greatest value. -/
def pickTopGo (best : String × Nat) : List (String × Nat) → String × Nat
  | [] => best
  | y :: ys => if best.2 < y.2 then pickTopGo y ys else pickTopGo best ys

/-- Python `max(d, key=d.get)` together with the `if d:` nonemptiness guard:
the first key of the ordered association list attaining the maximal value. -/
def pickTop : List (String × Nat) → Option (String × Nat)
  | [] => none
  | x :: xs => some (pickTopGo x xs)

/-- The body of `classify_category` on the already-lowercased text `t`. -/
def classifyLowered (t : List Char) : String :=
  if hasAnySub t vagueOnlyPhrases && !hasAnySub t environmentalKeywords then
    "unknown"
  else if hasAnySub t environmentalKeywords || hasAnySub t publicSafetyKeywords
      || propertyInProgress t then
    "safety"
  else
    match pickTop (scoresOf t) with
    | none => "unknown"
    | some (best, n) => if 0 < n then best else "unknown"

/-- `classify_category(text)` (the later, authoritative definition in
preprocessing.py); `t = (text or "").lower()`. -/
def classify_category (text : String) : String :=
  classifyLowered (lowerL text.data)

/-! ### preprocessing.py — `extract_time`

Embeds `re.search(r"\b(\d{1,2})(?::(\d{2}))?\s*(am|pm)\b", text, re.I)` and
`re.search(r"\b([01]?\d|2[0-3]):([0-5]\d)\b", text)` as explicit left-to-right
scans with the regex engine's greedy/backtracking alternative order. -/

def digitVal (c : Char) : Nat := c.toNat - '0'.toNat

/-- Matches `\s*(am|pm)\b` (case-insensitive); returns whether the meridiem is
`pm`.  `\s*` is maximal-munch here since `a`/`p` are not whitespace. -/
def ampmTail (t : List Char) : Option Bool :=
  match t.dropWhile isSpaceChar with
  | a :: m :: rest =>
    let la := lowerChar a
    if lowerChar m = 'm' && (la = 'a' || la = 'p') && boundaryOk rest.head? then
      some (la = 'p')
    else none
  | _ => none

/-- Matches `(?::(\d{2}))?\s*(am|pm)\b` after the hour digits: tries the
optional minute group first (greedy), falling back to no minutes.  Returns
`(minute, isPm)`; an absent minute group is `int(m.group(2) or "00") = 0`. -/
def tail12 (rest : List Char) : Option (Nat × Bool) :=
  let noColon : Option (Nat × Bool) := (ampmTail rest).map fun pm => (0, pm)
  match rest with
  | ':' :: m1 :: m2 :: rest2 =>
    if isDigitChar m1 && isDigitChar m2 then
      match ampmTail rest2 with
      | some pm => some (10 * digitVal m1 + digitVal m2, pm)
      | none => noColon
    else noColon
  | _ => noColon

/-- The 12-hour pattern anchored at one position (`c :: rest`), `\d{1,2}`
greedy: two digits first, then one.  Returns `(rawHour, minute, isPm)`. -/
def at12 (c : Char) (rest : List Char) : Option (Nat × Nat × Bool) :=
  if isDigitChar c then
    let two : Option (Nat × Nat × Bool) :=
      match rest with
      | c2 :: rest2 =>
        if isDigitChar c2 then
          (tail12 rest2).map fun p => (10 * digitVal c + digitVal c2, p.1, p.2)
        else none
      | [] => none
    match two with
    | some r => some r
    | none => (tail12 rest).map fun p => (digitVal c, p.1, p.2)
  else none

/-- Leftmost search for the 12-hour pattern; `prev` is the previous character
(for the leading `\b`, which faces a digit). -/
def search12 (prev : Option Char) : List Char → Option (Nat × Nat × Bool)
  | [] => none
  | c :: rest =>
    match (if boundaryOk prev then at12 c rest else none) with
    | some r => some r
    | none => search12 (some c) rest

/-- Matches `:([0-5]\d)\b` after the 24-hour hour part. -/
def tail24 (rest : List Char) : Option Nat :=
  match rest with
  | ':' :: m1 :: m2 :: rest2 =>
    if ('0' ≤ m1 && m1 ≤ '5') && isDigitChar m2 && boundaryOk rest2.head? then
      some (10 * digitVal m1 + digitVal m2)
    else none
  | _ => none

/-- The 24-hour pattern `([01]?\d|2[0-3]):([0-5]\d)` anchored at one position:
first alternative `[01]?\d` with `[01]` present, then with it empty, then
`2[0-3]`. -/
def at24 (c : Char) (rest : List Char) : Option (Nat × Nat) :=
  if isDigitChar c then
    let try1 : Option (Nat × Nat) :=
      if c = '0' || c = '1' then
        match rest with
        | c2 :: rest2 =>
          if isDigitChar c2 then
            (tail24 rest2).map fun m => (10 * digitVal c + digitVal c2, m)
          else none
        | [] => none
      else none
    let try2 : Option (Nat × Nat) := (tail24 rest).map fun m => (digitVal c, m)
    let try3 : Option (Nat × Nat) :=
      if c = '2' then
        match rest with
        | c2 :: rest2 =>
          if '0' ≤ c2 && c2 ≤ '3' then
            (tail24 rest2).map fun m => (20 + digitVal c2, m)
          else none
        | [] => none
      else none
    match try1 with
    | some r => some r
    | none => match try2 with
      | some r => some r
      | none => try3
  else none

/-- Leftmost search for the 24-hour pattern. -/
def search24 (prev : Option Char) : List Char → Option (Nat × Nat)
  | [] => none
  | c :: rest =>
    match (if boundaryOk prev then at24 c rest else none) with
    | some r => some r
    | none => search24 (some c) rest

/-- Python `f"{n:02d}"` for a natural number. -/
def fmt02 (n : Nat) : List Char :=
  if n < 10 then '0' :: Nat.toDigits 10 n else Nat.toDigits 10 n

/-- `extract_time(text)` from preprocessing.py: 12-hour pattern first, then
24-hour; 12-hour conversion (`pm` and hour ≠ 12 adds 12; `am` and hour = 12
becomes 0). -/
def extract_time (text : String) : Option String :=
  match search12 none text.data with
  | some (h, m, pm) =>
    let hour := if pm && h ≠ 12 then h + 12 else if !pm && h = 12 then 0 else h
    some (String.mk (fmt02 hour ++ ':' :: fmt02 m))
  | none =>
    match search24 none text.data with
    | some (h, m) => some (String.mk (fmt02 h ++ ':' :: fmt02 m))
    | none => none

/-! ### preprocessing.py — `extract_location`

Borough check first (`re.search(rf"\b{b}\b", text, re.I)` with the canonical
title-cased name), then the capitalized-phrase pattern
`re.search(r"\bin\s+([A-Z][a-zA-Z]+(?:\s+[A-Z][a-zA-Z]+)*)\b", text)`,
embedded with the star's greedy/backtracking behaviour.  The final `.strip()`
is the identity here since the captured group starts and ends with letters. -/

def boroughPairs : List (String × String) :=
  [("brooklyn", "Brooklyn"), ("manhattan", "Manhattan"), ("queens", "Queens"),
   ("bronx", "Bronx"), ("staten island", "Staten Island")]

/-- One `[A-Z][a-zA-Z]+` word (at least two letters), maximal-munch. -/
def capWordM : List Char → Option (List Char × List Char)
  | [] => none
  | c :: rest =>
    if isUpperAlpha c then
      let ls := rest.takeWhile isAlphaChar
      if ls = [] then none else some (c :: ls, rest.dropWhile isAlphaChar)
    else none

/-- The greedy `(?:\s+[A-Z][a-zA-Z]+)*` followed by `\b`: try another
repetition first; on failure fall back to requiring a word boundary after the
words matched so far.  `fuel` bounds the recursion (each repetition consumes
at least two characters of `rest`). -/
def locStar (fuel : Nat) (acc : List Char) (rest : List Char) : Option (List Char) :=
  match fuel with
  | 0 => none
  | fuel' + 1 =>
    let more : Option (List Char) :=
      let sp := rest.takeWhile isSpaceChar
      if sp = [] then none
      else
        match capWordM (rest.dropWhile isSpaceChar) with
        | some (w, rest2) => locStar fuel' (acc ++ sp ++ w) rest2
        | none => none
    match more with
    | some r => some r
    | none => if boundaryOk rest.head? then some acc else none

/-- After `in`: `\s+` then the capitalized-phrase capture group. -/
def inAt (t : List Char) : Option (List Char) :=
  if t.takeWhile isSpaceChar = [] then none
  else
    match capWordM (t.dropWhile isSpaceChar) with
    | some (w, rest2) => locStar (rest2.length + 1) w rest2
    | none => none

/-- Leftmost search for `\bin\s+([A-Z][a-zA-Z]+(?:\s+[A-Z][a-zA-Z]+)*)\b`. -/
def inSearch (prev : Option Char) : List Char → Option (List Char)
  | [] => none
  | c :: rest =>
    let here : Option (List Char) :=
      if boundaryOk prev && c = 'i' then
        match rest with
        | 'n' :: rest2 => inAt rest2
        | _ => none
      else none
    match here with
    | some r => some r
    | none => inSearch (some c) rest

/-- `extract_location(text)` from preprocessing.py. -/
def extract_location (text : String) : Option String :=
  match boroughPairs.find? (fun bp => containsKw (lowerL text.data) bp.1.data) with
  | some bp => some bp.2
  | none => (inSearch none text.data).map String.mk

/-! ### preprocessing.py — `extract_recurrence` -/

/-- The fixed recurrence patterns, in priority order, with the `\b` markers
stripped (which is what the source returns). -/
def recurrencePatterns : List String :=
  ["every day", "daily", "every weekend", "every week", "every night",
   "again", "recurring"]

/-- `extract_recurrence(text)`: first pattern (in order) found in the text as a
whole word, case-insensitively. -/
def extract_recurrence (text : String) : Option String :=
  recurrencePatterns.find? fun p => containsKw (lowerL text.data) p.data

/-! ### preprocessing.py — `estimate_urgency` -/

def highSignals : List String :=
  ["gas leak", "strong gas smell", "natural gas", "rotten egg",
   "carbon monoxide", "co alarm",
   "smoke", "fire", "explosion",
   "sparking", "live wire", "downed wire",
   "shooting", "shots fired", "gunfire",
   "stabbed", "stabbing",
   "unconscious", "not breathing", "can\x27t breathe",
   "chest pain", "fainting"]

def mediumSignals : List String :=
  ["chemical odor", "fumes", "vapors",
   "burning smell", "strong odor",
   "coughing", "dizzy", "vomiting", "headache",
   "weapon", "gun", "knife",
   "fight", "assault", "robbery",
   "blocking traffic", "swerving", "cars avoiding",
   "near crosswalk"]

def nuisanceSignals : List String :=
  ["every", "recurring", "again", "each weekend", "every weekend"]

def urgVagueSignals : List String :=
  ["something weird", "feels off", "strange", "not sure",
   "maybe", "might be", "kinda", "sort of"]

/-- The `property_crime` heuristic of `estimate_urgency` (narrower than the
classifier's: no car-break/tamper clause and no "trying door handles"
clause). -/
def urgPropertyCrime (t : List Char) : Bool :=
  (hasSub "door".data t && hasAnySub t ["handle", "knob"]
     && hasAnySub t ["try", "trying", "check", "checking", "jiggle", "pull"])
  || (hasSub "parked car".data t
     && hasAnySub t ["look", "looking", "peering", "checking"])

/-- The nighttime test of `estimate_urgency`:
`"night" in t or (time_24h and (time_24h >= "22:00" or time_24h <= "05:00"))`
with Python's lexicographic string comparison. -/
def nightCheck (t : List Char) (time_24h : Option String) : Bool :=
  hasSub "night".data t
  || (match time_24h with
      | none => false
      | some s =>
        if s.isEmpty then false
        else strLeL "22:00".data s.data || strLeL s.data "05:00".data)

/-- The accumulated integer severity of `estimate_urgency`, with the summands
in the source's order of accumulation. -/
def severityOf (t : List Char) (category : String) (time_24h : Option String) : Nat :=
  (if urgPropertyCrime t then 2 else 0)
  + (if hasAnySub t highSignals then 3 else 0)
  + (if hasAnySub t mediumSignals then 2 else 0)
  + (if category = "noise" && nightCheck t time_24h then 1 else 0)
  + (if hasAnySub t nuisanceSignals then 1 else 0)

/-- The body of `estimate_urgency` on the already-normalized text `t`. -/
def urgencyCore (t : List Char) (category : String) (time_24h : Option String) : String :=
  let severity := severityOf t category time_24h
  if hasAnySub t urgVagueSignals && severity = 0 then "low"
  else if 3 ≤ severity then "high"
  else if 2 ≤ severity then "medium"
  else "low"

/-- `estimate_urgency(text, category, time_24h)` from preprocessing.py;
`t = (text or "").lower().strip()`. -/
def estimate_urgency (text category : String) (time_24h : Option String) : String :=
  urgencyCore (stripL (lowerL text.data)) category time_24h

/-! ### decision.py — data model

The `parsed` and `draft_decision` dicts are modelled as structures whose
fields are the keys the source reads; `dict.get` of a possibly-missing key is
an `Option`.  `draft_decision["agency_guess"/"urgency_guess"/"action_guess"]`
are indexed unconditionally when the result is built, so those fields are
required. -/

structure Parsed where
  category : Option String
  location : Option String
  location_details : Option String
  borough : Option String
  time_24h : Option String
  recurrence : Option String
  complaint_text : Option String
deriving DecidableEq, Repr

structure Draft where
  agency_guess : String
  urgency_guess : String
  action_guess : String
  confidence_stub : Option ℚ
deriving DecidableEq, Repr

/-- The evidence dict as produced by `summarize_evidence`: `agency_counts` is
a Python dict, modelled as an association list in insertion order with unique
keys; `top_cases` and `evidence_summary` are display-only and not read by
`build_dispatch_decision`, so they are omitted.  An evidence dict with these
keys is always truthy, so supplying `some e` models `if evidence:`
succeeding. -/
structure Evidence where
  agency_counts : List (String × Nat)
  total_matches : Nat
  top_score : Option ℚ
deriving DecidableEq, Repr

structure DecisionOut where
  agency : String
  urgency : String
  action : String
  justification : String
  confidence : ℚ
deriving DecidableEq, Repr

/-- Python `round(x, 2)` on exact rationals, via the computable `Rat.floor`
(round half up, while Python rounds half to even; no verified property depends
on behaviour at exact half-ties, where both sides are exact hundredths). -/
def round2 (q : ℚ) : ℚ := ((q * 100 + 1/2).floor : ℚ) / 100

/-! ### decision.py — `build_dispatch_decision`, staged -/

/-- The `vague_signals` list of decision.py (distinct from the classifier's
vague list). -/
def decisionVagueSignals : List String :=
  ["weird", "strange", "not sure", "maybe",
   "something", "feels off", "smells funny",
   "i think", "might be", "kind of", "sort of"]

/-- `is_vague`: any hedging phrase occurs in the lowercased complaint text. -/
def isVague (p : Parsed) : Bool :=
  decisionVagueSignals.any fun v => hasSub v.data (lowerL (p.complaint_text.getD "").data)

/-- `parsed.get("category") in (None, "unknown")`. -/
def catUnknownOrNone (p : Parsed) : Bool :=
  p.category = none || p.category = some "unknown"

/-- `has_any_location`: location or location_details nonempty after strip. -/
def hasAnyLocation (p : Parsed) : Bool :=
  !(stripL (p.location.getD "").data = []) || !(stripL (p.location_details.getD "").data = [])

/-- The safety/high-urgency special case guard. -/
def safetyHigh (p : Parsed) (d : Draft) : Bool :=
  p.category = some "safety" && d.urgency_guess = "high"

/-- `float(draft_decision.get("confidence_stub", 0.5))`. -/
def seedConf (d : Draft) : ℚ := d.confidence_stub.getD (1/2)

/-- Confidence after the category penalty and the safety/high floor (which the
source applies before the location and time penalties). -/
def confAfterSafetyFloor (p : Parsed) (d : Draft) : ℚ :=
  let c1 := if catUnknownOrNone p then seedConf d - 15/100 else seedConf d
  if safetyHigh p d then max c1 (85/100) else c1

/-- Confidence after all penalties and the 0.05 floor — the value entering the
hard-cap stage. -/
def confAfterPenalties (p : Parsed) (d : Draft) : ℚ :=
  let c2 := confAfterSafetyFloor p d
  let c3 := if hasAnyLocation p then c2 else c2 - 10/100
  let c4 := if pyTruthy p.time_24h then c3 else c3 - 5/100
  max (5/100) c4

/-- Confidence after the vague and no-location hard caps — the value entering
evidence fusion. -/
def confPreEvidence (p : Parsed) (d : Draft) : ℚ :=
  let c5 := confAfterPenalties p d
  let c6 := if isVague p then min c5 (35/100) else c5
  if hasAnyLocation p then c6 else min c6 (40/100)

/-- `vote_ratio = top_count / total_matches if total_matches else 0.0`. -/
def voteFrac (ev : Evidence) : ℚ :=
  if ev.total_matches = 0 then 0
  else (((pickTop ev.agency_counts).map fun x => x.2).getD 0 : ℚ) / ev.total_matches

/-- The guard `if top_agency and top_score is not None:` — a truthy top agency
together with a present top score, or nothing. -/
def fuseGate (ev : Evidence) : Option (String × ℚ) :=
  match pickTop ev.agency_counts, ev.top_score with
  | some (ta, _), some ts => if ta = "" then none else some (ta, ts)
  | _, _ => none

/-- The evidence-fusion step of `build_dispatch_decision`, returning the new
confidence and the (possibly overwritten) `agency_guess`. -/
def fuse (p : Parsed) (d : Draft) (ev : Evidence)
    (agency_vote_ratio_threshold score_threshold : ℚ) (c : ℚ) : ℚ × String :=
  match fuseGate ev with
  | none => (c, d.agency_guess)
  | some (ta, ts) =>
    if (agency_vote_ratio_threshold ≤ voteFrac ev ∧ score_threshold ≤ ts)
        ∧ ¬ isVague p ∧ p.category ≠ some "unknown" then
      if ta ≠ d.agency_guess then
        (min (80/100) (max c (60/100) + 10/100), ta)
      else
        (min (75/100) (c + 5/100), d.agency_guess)
    else
      (max (20/100) (c - 5/100), d.agency_guess)

/-- Python `f"{q:.2f}"` for the rationals that occur in justifications. -/
def fmt2dec (q : ℚ) : String :=
  let n : ℤ := (q * 100 + 1/2).floor
  let m := n.natAbs
  (if n < 0 then "-" else "") ++ toString (m / 100) ++ "."
    ++ (if m % 100 < 10 then "0" else "") ++ toString (m % 100)

/-- The ordered justification entries built from the parsed complaint. -/
def justParts (p : Parsed) : List String :=
  (if pyTruthy p.time_24h then ["time=" ++ p.time_24h.getD ""] else [])
  ++ (if pyTruthy p.recurrence then ["recurrence=" ++ p.recurrence.getD ""] else [])
  ++ (if pyTruthy p.location || pyTruthy p.location_details then
        ["location=" ++ (if pyTruthy p.location then p.location.getD ""
                         else p.location_details.getD "")]
      else [])
  ++ ["category=" ++ p.category.getD "unknown"]

/-- The justification entries appended during evidence handling (`if
top_agency:`). -/
def evJustParts (ev : Evidence) : List String :=
  match pickTop ev.agency_counts with
  | none => []
  | some (ta, _) =>
    if ta = "" then []
    else
      ["evidence_top_agency=" ++ ta, "evidence_vote_ratio=" ++ fmt2dec (voteFrac ev)]
      ++ (match ev.top_score with
          | some ts => ["evidence_top_score=" ++ fmt2dec ts]
          | none => [])

/-- `build_dispatch_decision(parsed, draft_decision, evidence,
agency_vote_ratio_threshold, score_threshold)` from decision.py.  The source
mutates `draft_decision["agency_guess"]` in place in the override branch; the
embedding returns the final draft state as the second component. -/
def build_dispatch_decision (p : Parsed) (d : Draft) (ev : Option Evidence)
    (agency_vote_ratio_threshold score_threshold : ℚ) : DecisionOut × Draft :=
  let c := confPreEvidence p d
  let fused : ℚ × String :=
    match ev with
    | none => (c, d.agency_guess)
    | some e => fuse p d e agency_vote_ratio_threshold score_threshold c
  let d' : Draft := { d with agency_guess := fused.2 }
  ({ agency := fused.2
     urgency := d.urgency_guess
     action := d.action_guess
     justification :=
       String.intercalate ", "
         (justParts p ++ (match ev with | none => [] | some e => evJustParts e))
     confidence := round2 fused.1 },
   d')

/-! ### main.py — the deterministic preprocessing of `execute` and the review
gate (prompt-only path: no stored complaint record). -/

def AGENCY_MAP : List (String × String) :=
  [("noise", "Noise Control / Non-emergency Police"),
   ("sanitation", "Sanitation Department"),
   ("parking", "Parking Enforcement"),
   ("street", "Public Works / DOT"),
   ("water", "Water & Sewer Department"),
   ("safety", "Emergency Services / Police"),
   ("unknown", "311 Triage (Unknown)")]

/-- `AGENCY_MAP.get(category, AGENCY_MAP["unknown"])`. -/
def agencyFor (category : String) : String :=
  ((AGENCY_MAP.find? fun x => x.1 = category).map fun x => x.2).getD "311 Triage (Unknown)"

/-- The `action_guess` elif-chain of `execute`. -/
def actionFor (category : String) : String :=
  if category = "noise" then
    "Create noise complaint ticket; advise caller; dispatch non-emergency check if repeated"
  else if category = "sanitation" then "Create sanitation ticket; schedule cleanup/inspection"
  else if category = "parking" then
    "Create parking enforcement request; recommend tow/inspection if blocking"
  else if category = "street" then "Create public works ticket; schedule repair/inspection"
  else if category = "water" then "Create water/sewer ticket; dispatch crew if leak/flood risk"
  else if category = "safety" then "Escalate immediately to emergency services"
  else "Log ticket for review"

/-- The borough derivation of `execute` (prompt path: no complaint record). -/
def boroughOf (location : Option String) : Option String :=
  match location with
  | none => none
  | some l =>
    if l.isEmpty then none
    else if ["brooklyn", "manhattan", "queens", "bronx", "staten island"].contains
        (String.mk (lowerL l.data)) then
      some (String.mk (upperL l.data))
    else none

/-- The `parsed` dict built by `execute` for a prompt (already stripped by the
caller check). -/
def executeParsed (prompt : String) : Parsed :=
  let location := extract_location prompt
  { category := some (classify_category prompt)
    location := location
    location_details := none
    borough := boroughOf location
    time_24h := extract_time prompt
    recurrence := extract_recurrence prompt
    complaint_text := some prompt }

/-- The `draft_decision` dict built by `execute`:
`confidence_stub = 0.35 if category == "unknown" else 0.55`. -/
def executeDraft (prompt : String) : Draft :=
  let category := classify_category prompt
  { agency_guess := agencyFor category
    urgency_guess := estimate_urgency prompt category (extract_time prompt)
    action_guess := actionFor category
    confidence_stub := some (if category = "unknown" then 35/100 else 55/100) }

/-- The `critical_missing` list of `execute`'s confidence gating. -/
def criticalMissing (p : Parsed) : List String :=
  (if catUnknownOrNone p then ["category"] else [])
  ++ (if pyTruthy p.location then [] else ["location"])

/-- `needs_review = confidence < 0.6 or len(critical_missing) > 0`. -/
def needsReview (p : Parsed) (confidence : ℚ) : Bool :=
  decide (confidence < 3/5) || decide (criticalMissing p ≠ [])

/-! ### Derived predicates naming the evidence-fusion branches -/

/-- The boost guard of evidence fusion for a present evidence dict: the gate
passes (truthy top agency and present top score) and `strong_evidence and not
is_vague and category != "unknown"` holds — the condition under which either
the override or the confirm branch runs. -/
def boostFiresEv (p : Parsed) (e : Evidence)
    (agency_vote_ratio_threshold score_threshold : ℚ) : Bool :=
  match fuseGate e with
  | none => false
  | some (_, ts) =>
    decide ((agency_vote_ratio_threshold ≤ voteFrac e ∧ score_threshold ≤ ts)
      ∧ ¬ isVague p = true ∧ p.category ≠ some "unknown")

/-- The boost guard of evidence fusion, for an optional evidence dict. -/
def boostFires (p : Parsed) (ev : Option Evidence)
    (agency_vote_ratio_threshold score_threshold : ℚ) : Bool :=
  match ev with
  | none => false
  | some e => boostFiresEv p e agency_vote_ratio_threshold score_threshold

/-- The confirm branch guard: boost fires and the top agency equals the
draft's guess. -/
def confirmFires (p : Parsed) (d : Draft) (e : Evidence)
    (agency_vote_ratio_threshold score_threshold : ℚ) : Bool :=
  match fuseGate e with
  | none => false
  | some (ta, ts) =>
    decide ((agency_vote_ratio_threshold ≤ voteFrac e ∧ score_threshold ≤ ts)
      ∧ ¬ isVague p = true ∧ p.category ≠ some "unknown")
    && decide (ta = d.agency_guess)

/-- The override branch guard: boost fires and the top agency differs from
the draft's guess. -/
def overrideFires (p : Parsed) (d : Draft) (e : Evidence)
    (agency_vote_ratio_threshold score_threshold : ℚ) : Bool :=
  match fuseGate e with
  | none => false
  | some (ta, ts) =>
    decide ((agency_vote_ratio_threshold ≤ voteFrac e ∧ score_threshold ≤ ts)
      ∧ ¬ isVague p = true ∧ p.category ≠ some "unknown")
    && decide (ta ≠ d.agency_guess)

/-! ### Spec-side definitions (formalizing the specification's wording, for
comparison with the embedded source) -/

/-- Spec-side validity of a time string: zero-padded `HH:MM` with `HH` in
00–23 and `MM` in 00–59 (the spec's invariant for `time_24h`). -/
def specValidTimeFormat (s : String) : Bool :=
  match s.data with
  | [h1, h2, ':', m1, m2] =>
    isDigitChar h1 && isDigitChar h2 && isDigitChar m1 && isDigitChar m2
      && decide (10 * digitVal h1 + digitVal h2 ≤ 23)
      && decide (10 * digitVal m1 + digitVal m2 ≤ 59)
  | _ => false

/-- The largest score value in an ordered score list. -/
def maxScore (l : List (String × Nat)) : Nat :=
  l.foldr (fun x m => max x.2 m) 0

/-- Spec-side description of the keyword-scoring stage: the category with the
highest whole-word keyword count wins, ties broken by first position in the
fixed category list, and a best count of 0 yields "unknown". -/
def specBestCategory (t : List Char) : String :=
  let scores := scoresOf t
  let m := maxScore scores
  if m = 0 then "unknown"
  else (((scores.find? fun x => decide (x.2 = m)).map fun x => x.1).getD "unknown")

/-- Spec-side severity: the claim's additive rules, in the claim's order
(+3 high, +2 medium, +2 property crime, +1 nighttime noise, +1 recurring). -/
def specSeverity (t : List Char) (category : String) (time_24h : Option String) : Nat :=
  (if hasAnySub t highSignals then 3 else 0)
  + (if hasAnySub t mediumSignals then 2 else 0)
  + (if urgPropertyCrime t then 2 else 0)
  + (if category = "noise" && nightCheck t time_24h then 1 else 0)
  + (if hasAnySub t nuisanceSignals then 1 else 0)

/-- Spec-side urgency on normalized text: vague-only short-circuit to "low",
then the final mapping severity ≥ 3 → "high", ≥ 2 → "medium", else "low". -/
def specUrgencyCore (t : List Char) (category : String) (time_24h : Option String) : String :=
  if hasAnySub t urgVagueSignals && specSeverity t category time_24h = 0 then "low"
  else if 3 ≤ specSeverity t category time_24h then "high"
  else if 2 ≤ specSeverity t category time_24h then "medium"
  else "low"

/-- Spec-side urgency of a raw text. -/
def specUrgency (text category : String) (time_24h : Option String) : String :=
  specUrgencyCore (stripL (lowerL text.data)) category time_24h

/-- A zero-padded `HH:MM` string from numeric hour and minute. -/
def timeHM (h m : Nat) : String := String.mk (fmt02 h ++ ':' :: fmt02 m)

/-- The input text of the end-to-end scenario. -/
def c4text : String := "loud party at 2am in Brooklyn, recurring every weekend"

/-- The agreeing-agency evidence of the end-to-end scenario: vote ratio 1.0,
top score 0.62, top agency equal to the draft's `agency_guess` for a "noise"
complaint. -/
def c4evidence : Evidence :=
  ⟨[("Noise Control / Non-emergency Police", 3)], 3, some (62/100)⟩

/-! ### Helper lemmas about rounding -/

theorem ratFloor_mono {a b : ℚ} (h : a ≤ b) : a.floor ≤ b.floor :=
  Rat.le_floor.mpr (le_trans (Rat.le_floor.mp le_rfl) h)

theorem ratFloor_intCast_add_half (n : ℤ) : ((n : ℚ) + 1/2).floor = n := by
  have h1 : n ≤ ((n : ℚ) + 1/2).floor := by
    apply Rat.le_floor.mpr
    linarith [show (0:ℚ) < 1/2 by norm_num]
  by_contra hne
  have h4 : n + 1 ≤ ((n : ℚ) + 1/2).floor := by omega
  have h5 : ((((n : ℚ) + 1/2).floor : ℤ) : ℚ) ≤ (n : ℚ) + 1/2 := Rat.le_floor.mp le_rfl
  have h6 : ((n + 1 : ℤ) : ℚ) ≤ ((((n : ℚ) + 1/2).floor : ℤ) : ℚ) := by exact_mod_cast h4
  push_cast at h6
  linarith

theorem round2_mono {a b : ℚ} (h : a ≤ b) : round2 a ≤ round2 b := by
  unfold round2
  have h2 : (a * 100 + 1/2).floor ≤ (b * 100 + 1/2).floor := ratFloor_mono (by linarith)
  have h3 : (((a * 100 + 1/2).floor : ℤ) : ℚ) ≤ (((b * 100 + 1/2).floor : ℤ) : ℚ) := by
    exact_mod_cast h2
  linarith

theorem round2_hundredths (n : ℤ) : round2 ((n : ℚ) / 100) = (n : ℚ) / 100 := by
  unfold round2
  have he : (n : ℚ) / 100 * 100 + 1/2 = (n : ℚ) + 1/2 := by ring
  rw [he, ratFloor_intCast_add_half]

theorem round2_le_const {x c : ℚ} (n : ℤ) (hc : (n : ℚ) / 100 = c) (h : x ≤ c) :
    round2 x ≤ c := by
  subst hc
  calc round2 x ≤ round2 ((n : ℚ) / 100) := round2_mono h
  _ = (n : ℚ) / 100 := round2_hundredths n

/-! ### Helper lemmas about the confidence stages -/

theorem confPreEvidence_le_of_vague (p : Parsed) (d : Draft) (h : isVague p = true) :
    confPreEvidence p d ≤ 35/100 := by
  unfold confPreEvidence
  simp only [h, if_true]
  split_ifs
  · exact min_le_right _ _
  · exact le_trans (min_le_left _ _) (min_le_right _ _)

theorem fuse_fst_le_of_vague (p : Parsed) (d : Draft) (e : Evidence) (a s c : ℚ)
    (h : isVague p = true) (hc : c ≤ 35/100) : (fuse p d e a s c).1 ≤ 35/100 := by
  unfold fuse
  rcases hg : fuseGate e with _ | ⟨ta, ts⟩
  · exact hc
  · simp only
    split_ifs with h1 h2
    · exact absurd h h1.2.1
    · exact absurd h h1.2.1
    · apply max_le
      · norm_num
      · linarith

/-! ### Claim C5 -/

/-- C5 (code bug): the spec's invariant requires every value returned by
`extract_time` to be `HH:MM` with `HH` in 00–23 and `MM` in 00–59, but the
12-hour branch does not bound the matched hour: on input "25am" the code
returns "25:00", which violates the invariant. -/
theorem extract_time_hour_out_of_range :
    extract_time "25am" = some "25:00" ∧ specValidTimeFormat "25:00" = false := by
  constructor
  · decide
  · decide

/-! ### Claim C6 -/

/-- C6: for every input to `build_dispatch_decision` whose complaint text
contains a hedging phrase (`is_vague` true), the final rounded confidence is
at most 0.35, for any evidence and any thresholds — the boost branches require
`not is_vague`, and the caps and the mild penalty keep the value below the
0.35 cap. -/
theorem vague_complaint_confidence_le (p : Parsed) (d : Draft) (ev : Option Evidence)
    (a s : ℚ) (h : isVague p = true) :
    (build_dispatch_decision p d ev a s).1.confidence ≤ 35/100 := by
  have hpre := confPreEvidence_le_of_vague p d h
  have hf : (match ev with
      | none => (confPreEvidence p d, d.agency_guess)
      | some e => fuse p d e a s (confPreEvidence p d)).1 ≤ 35/100 := by
    cases ev with
    | none => exact hpre
    | some e => exact fuse_fst_le_of_vague p d e a s _ h hpre
  unfold build_dispatch_decision
  exact round2_le_const 35 (by norm_num) hf

/-- Witness for C6: a concrete vague complaint ("maybe loud party") with
strong evidence still ends at confidence ≤ 0.35. -/
theorem vague_complaint_confidence_le_witness :
    (build_dispatch_decision ⟨some "noise", some "B", none, none, some "02:00", none,
        some "maybe loud party"⟩
      ⟨"NYPD", "medium", "x", some (55/100)⟩
      (some ⟨[("DEP", 3)], 3, some (99/100)⟩) (7/10) (62/100)).1.confidence ≤ 35/100 :=
  vague_complaint_confidence_le _ _ _ _ _ (by decide)

/-! ### Claim C1 -/

/-- C1 (counterexample): a supplied EvidenceSummary with no matches (empty
`agency_counts`, `total_matches` 0, a present top score) does not trigger the
mild penalty: on this input the final confidence is 0.55, not the
max(0.20, 0.55 − 0.05) = 0.50 the claim predicts. -/
theorem evidence_mild_penalty_counterexample :
    (build_dispatch_decision
        ⟨some "noise", some "Brooklyn", none, none, some "02:00", none, some "loud party"⟩
        ⟨"NYPD", "medium", "x", some (55/100)⟩
        (some ⟨[], 0, some (9/10)⟩) (7/10) (62/100)).1.confidence = 55/100
    ∧ (55 : ℚ)/100 ≠ max (20/100) (55/100 - 5/100) := by
  constructor
  · with_unfolding_all rfl
  · have h : max ((20:ℚ)/100) (55/100 - 5/100) = 55/100 - 5/100 := max_eq_right (by norm_num)
    rw [h]
    norm_num

/-- C1 (amended): the mild penalty applies exactly when the fusion gate passes
(a truthy top agency and a present top score) and the boost condition (strong
evidence, not vague, category not "unknown") fails; when the gate does not
pass — empty `agency_counts` (no top agency) or an absent `top_score` — the
fusion step leaves the confidence unchanged. -/
theorem evidence_mild_penalty_scope (p : Parsed) (d : Draft) (e : Evidence) (a s : ℚ) :
    (∀ ta ts, fuseGate e = some (ta, ts) →
      ¬ ((a ≤ voteFrac e ∧ s ≤ ts) ∧ ¬ isVague p = true ∧ p.category ≠ some "unknown") →
      (build_dispatch_decision p d (some e) a s).1.confidence
        = round2 (max (20/100) (confPreEvidence p d - 5/100)))
    ∧ (fuseGate e = none →
      (build_dispatch_decision p d (some e) a s).1.confidence
        = round2 (confPreEvidence p d)) := by
  constructor
  · intro ta ts hg hcond
    have hkey : (build_dispatch_decision p d (some e) a s).1.confidence
        = round2 ((fuse p d e a s (confPreEvidence p d)).1) := rfl
    rw [hkey]
    unfold fuse
    rw [hg]
    simp only
    rw [if_neg hcond]
  · intro hg
    have hkey : (build_dispatch_decision p d (some e) a s).1.confidence
        = round2 ((fuse p d e a s (confPreEvidence p d)).1) := rfl
    rw [hkey]
    unfold fuse
    rw [hg]

/-- Witness for C1 (amended): weak evidence (top score 0.50 < 0.62) with a top
agency present does apply the mild penalty. -/
theorem evidence_mild_penalty_scope_witness :
    (build_dispatch_decision
        ⟨some "noise", some "Brooklyn", none, none, some "02:00", none, some "loud party"⟩
        ⟨"NYPD", "medium", "x", some (55/100)⟩
        (some ⟨[("NYPD", 1)], 3, some (1/2)⟩) (7/10) (62/100)).1.confidence
      = round2 (max (20/100)
          (confPreEvidence
            ⟨some "noise", some "Brooklyn", none, none, some "02:00", none, some "loud party"⟩
            ⟨"NYPD", "medium", "x", some (55/100)⟩ - 5/100)) :=
  (evidence_mild_penalty_scope _ _ _ _ _).1 "NYPD" (1/2)
    (by with_unfolding_all rfl)
    (fun hco => absurd hco.1.2 (by norm_num))

/-! ### Claim C2 -/

/-- C2 (counterexample): with no location signal, strong evidence naming a
different agency runs the override branch after the 0.40 cap and lifts the
final confidence to 0.70 > 0.40, contradicting the claim. -/
theorem no_location_cap_counterexample :
    (build_dispatch_decision
        ⟨some "noise", none, none, none, some "02:00", none, some "loud party"⟩
        ⟨"NYPD", "medium", "x", some (55/100)⟩
        (some ⟨[("DEP", 3)], 3, some (62/100)⟩) (7/10) (62/100)).1.confidence = 70/100
    ∧ ¬ ((70 : ℚ)/100 ≤ 40/100) := by
  constructor
  · with_unfolding_all rfl
  · norm_num

theorem confPreEvidence_le_of_no_location (p : Parsed) (d : Draft)
    (h : hasAnyLocation p = false) : confPreEvidence p d ≤ 40/100 := by
  unfold confPreEvidence
  simp only [h, Bool.false_eq_true, if_false]
  exact min_le_right _ _

theorem fuse_fst_le_70 (p : Parsed) (d : Draft) (e : Evidence) (a s c : ℚ)
    (hc : c ≤ 40/100) : (fuse p d e a s c).1 ≤ 70/100 := by
  unfold fuse
  rcases hg : fuseGate e with _ | ⟨ta, ts⟩
  · simp only
    linarith
  · simp only
    split_ifs with h1 h2
    · have hm : max c (60/100) ≤ 60/100 := max_le (by linarith) le_rfl
      calc min (80/100) (max c (60/100) + 10/100) ≤ max c (60/100) + 10/100 :=
            min_le_right _ _
        _ ≤ 70/100 := by linarith
    · calc min (75/100) (c + 5/100) ≤ c + 5/100 := min_le_right _ _
        _ ≤ 70/100 := by linarith
    · exact max_le (by norm_num) (by linarith)

theorem fuse_fst_no_boost (p : Parsed) (d : Draft) (e : Evidence) (a s c : ℚ)
    (hb : boostFiresEv p e a s = false) (hc : c ≤ 40/100) :
    (fuse p d e a s c).1 ≤ 40/100 := by
  unfold fuse
  unfold boostFiresEv at hb
  rcases hg : fuseGate e with _ | ⟨ta, ts⟩
  · exact hc
  · rw [hg] at hb
    simp only
    split_ifs with h1 h2
    · exact absurd h1 (of_decide_eq_false hb)
    · exact absurd h1 (of_decide_eq_false hb)
    · exact max_le (by norm_num) (by linarith)

/-- C2 (amended): if no location signal exists, the pre-fusion confidence is
capped at 0.40 and the final rounded confidence stays ≤ 0.40 whenever the
strong-evidence boost branches do not run; the boost branches can raise it
afterwards (to 0.70 via an override, at most 0.45 via a confirm), so the final
rounded confidence is ≤ 0.70 in all cases. -/
theorem no_location_confidence_bounds (p : Parsed) (d : Draft) (ev : Option Evidence)
    (a s : ℚ) (h : hasAnyLocation p = false) :
    (build_dispatch_decision p d ev a s).1.confidence ≤ 70/100
    ∧ (boostFires p ev a s = false →
        (build_dispatch_decision p d ev a s).1.confidence ≤ 40/100) := by
  have hpre : confPreEvidence p d ≤ 40/100 := confPreEvidence_le_of_no_location p d h
  cases ev with
  | none =>
    constructor
    · exact round2_le_const 70 (by norm_num) (by linarith)
    · intro _
      exact round2_le_const 40 (by norm_num) hpre
  | some e =>
    constructor
    · exact round2_le_const 70 (by norm_num) (fuse_fst_le_70 p d e a s _ hpre)
    · intro hb
      exact round2_le_const 40 (by norm_num) (fuse_fst_no_boost p d e a s _ hb hpre)

/-- Witness for C2 (amended): with no location and no evidence, the final
confidence is ≤ 0.40. -/
theorem no_location_confidence_bounds_witness :
    (build_dispatch_decision
        ⟨some "noise", none, none, none, some "02:00", none, some "loud party"⟩
        ⟨"NYPD", "medium", "x", some (55/100)⟩ none (7/10) (62/100)).1.confidence
      ≤ 40/100 :=
  (no_location_confidence_bounds _ _ _ _ _ (by decide)).2 (by decide)

/-! ### Claim C3 -/

/-- C3 (counterexample): a "safety"/"high" complaint with a location but no
time has confidence 0.80 < 0.85 at the point where the hard caps are applied —
the −0.05 time penalty (not a cap) brought it below 0.85 after the floor. -/
theorem safety_floor_counterexample :
    confAfterPenalties
        ⟨some "safety", some "Main St", none, none, none, none, some "shots fired on Main St"⟩
        ⟨"E", "high", "a", some (55/100)⟩ = 80/100
    ∧ ¬ ((85 : ℚ)/100 ≤ 80/100) := by
  constructor
  · with_unfolding_all rfl
  · norm_num

/-- C3 (amended): for "safety" complaints with draft urgency "high", the 0.85
floor is applied before the location/time penalties, the caps and evidence
fusion, so the confidence is at least 0.85 immediately after the floor and at
least 0.70 when the caps are applied; when both a location and a time are
present it is still at least 0.85 at the cap point, and at least 0.85 entering
fusion when additionally the complaint is not vague (sufficient conditions: a
stub above 0.85 can offset a penalty, so these are not necessary). -/
theorem safety_high_floor_stages (p : Parsed) (d : Draft)
    (h1 : p.category = some "safety") (h2 : d.urgency_guess = "high") :
    85/100 ≤ confAfterSafetyFloor p d
    ∧ 70/100 ≤ confAfterPenalties p d
    ∧ (hasAnyLocation p = true → pyTruthy p.time_24h = true →
        85/100 ≤ confAfterPenalties p d)
    ∧ (hasAnyLocation p = true → pyTruthy p.time_24h = true → isVague p = false →
        85/100 ≤ confPreEvidence p d) := by
  have hsh : safetyHigh p d = true := by
    unfold safetyHigh
    rw [h1, h2]
    decide
  have hA : 85/100 ≤ confAfterSafetyFloor p d := by
    unfold confAfterSafetyFloor
    rw [hsh]
    simp only [if_true]
    exact le_max_right _ _
  have hB : 70/100 ≤ confAfterPenalties p d := by
    unfold confAfterPenalties
    split_ifs <;>
      exact le_trans (by linarith) (le_max_right _ _)
  have hC : hasAnyLocation p = true → pyTruthy p.time_24h = true →
      85/100 ≤ confAfterPenalties p d := by
    intro hloc htime
    unfold confAfterPenalties
    rw [hloc, htime]
    simp only [if_true]
    exact le_trans hA (le_max_right _ _)
  refine ⟨hA, hB, hC, ?_⟩
  intro hloc htime hvag
  unfold confPreEvidence
  rw [hvag, hloc]
  simp only [Bool.false_eq_true, if_false, if_true]
  exact hC hloc htime

/-- Witness for C3 (amended): a concrete safety/high complaint with location
and time present keeps confidence ≥ 0.85 through penalties. -/
theorem safety_high_floor_stages_witness :
    85/100 ≤ confAfterPenalties
        ⟨some "safety", some "Park Ave", none, none, some "21:00", none,
          some "shots fired at the park"⟩
        ⟨"Emergency Services / Police", "high", "a", some (55/100)⟩ :=
  (safety_high_floor_stages _ _ rfl rfl).2.2.1 (by decide) (by decide)

/-! ### Claim C10 -/

theorem round2_eq_const {c : ℚ} (n : ℤ) (hc : (n : ℚ) / 100 = c) : round2 c = c := by
  subst hc
  exact round2_hundredths n

/-- C10: whenever the confirm branch runs (strong evidence, not vague, known
category, top agency equal to the draft's guess), the final confidence is
round(min(0.75, c + 0.05)) for the pre-fusion confidence c, hence never above
0.75; when c exceeds 0.75 (e.g. the 0.85 safety/high floor with location and
time present), strong agreeing evidence strictly lowers the confidence, to
exactly 0.75. -/
theorem confirm_branch_caps_confidence (p : Parsed) (d : Draft) (e : Evidence) (a s : ℚ)
    (h : confirmFires p d e a s = true) :
    (build_dispatch_decision p d (some e) a s).1.confidence
      = round2 (min (75/100) (confPreEvidence p d + 5/100))
    ∧ (build_dispatch_decision p d (some e) a s).1.confidence ≤ 75/100
    ∧ (75/100 < confPreEvidence p d →
        (build_dispatch_decision p d (some e) a s).1.confidence = 75/100
        ∧ (build_dispatch_decision p d (some e) a s).1.confidence
            < confPreEvidence p d) := by
  unfold confirmFires at h
  rcases hg : fuseGate e with _ | ⟨ta, ts⟩
  · rw [hg] at h
    exact absurd h (by simp)
  · rw [hg] at h
    rw [Bool.and_eq_true] at h
    have hcond := of_decide_eq_true h.1
    have hta : ta = d.agency_guess := of_decide_eq_true h.2
    have hkey : (build_dispatch_decision p d (some e) a s).1.confidence
        = round2 (min (75/100) (confPreEvidence p d + 5/100)) := by
      have hk0 : (build_dispatch_decision p d (some e) a s).1.confidence
          = round2 ((fuse p d e a s (confPreEvidence p d)).1) := rfl
      rw [hk0]
      unfold fuse
      rw [hg]
      simp only
      rw [if_pos hcond, if_neg (by simp [hta])]
    refine ⟨hkey, ?_, ?_⟩
    · rw [hkey]
      exact round2_le_const 75 (by norm_num) (min_le_left _ _)
    · intro hlt
      have hmin : min ((75:ℚ)/100) (confPreEvidence p d + 5/100) = 75/100 :=
        min_eq_left (by linarith)
      constructor
      · rw [hkey, hmin]
        exact round2_eq_const 75 (by norm_num)
      · rw [hkey, hmin, round2_eq_const 75 (by norm_num)]
        linarith

/-- Witness for C10: the safety/high floor gives pre-fusion confidence 0.85;
strong agreeing evidence lowers the final confidence to exactly 0.75. -/
theorem confirm_branch_caps_confidence_witness :
    (build_dispatch_decision
        ⟨some "safety", some "Park Ave", none, none, some "21:00", none,
          some "shots fired at the park"⟩
        ⟨"Emergency Services / Police", "high", "a", some (55/100)⟩
        (some ⟨[("Emergency Services / Police", 3)], 3, some (62/100)⟩)
        (7/10) (62/100)).1.confidence = 75/100 := by
  have hgt : (75:ℚ)/100 < confPreEvidence
      ⟨some "safety", some "Park Ave", none, none, some "21:00", none,
        some "shots fired at the park"⟩
      ⟨"Emergency Services / Police", "high", "a", some (55/100)⟩ := by
    have he : confPreEvidence
        ⟨some "safety", some "Park Ave", none, none, some "21:00", none,
          some "shots fired at the park"⟩
        ⟨"Emergency Services / Police", "high", "a", some (55/100)⟩ = 85/100 := by
      with_unfolding_all rfl
    rw [he]
    norm_num
  exact ((confirm_branch_caps_confidence _ _ _ _ _ (by with_unfolding_all rfl)).2.2 hgt).1

/-! ### Claim C9 -/

/-- C9: `build_dispatch_decision` reads the parsed complaint without writing
it (the embedding therefore passes it read-only), and of the draft decision it
can mutate only `agency_guess`: `urgency_guess`, `action_guess` and
`confidence_stub` are returned unchanged, and `agency_guess` is overwritten —
with the evidence's top agency — exactly when the override branch runs
(gate passed, strong evidence, not vague, known category, top agency different
from the draft's guess). -/
theorem draft_mutation_frame (p : Parsed) (d : Draft) (ev : Option Evidence) (a s : ℚ) :
    (build_dispatch_decision p d ev a s).2.urgency_guess = d.urgency_guess
    ∧ (build_dispatch_decision p d ev a s).2.action_guess = d.action_guess
    ∧ (build_dispatch_decision p d ev a s).2.confidence_stub = d.confidence_stub
    ∧ (((build_dispatch_decision p d ev a s).2.agency_guess = d.agency_guess
          ∧ ∀ e, ev = some e → overrideFires p d e a s = false)
       ∨ (∃ e ta ts, ev = some e ∧ fuseGate e = some (ta, ts)
            ∧ overrideFires p d e a s = true
            ∧ (build_dispatch_decision p d ev a s).2.agency_guess = ta)) := by
  refine ⟨rfl, rfl, rfl, ?_⟩
  cases ev with
  | none =>
    left
    exact ⟨rfl, fun e he => Option.noConfusion he⟩
  | some e =>
    have hkey : (build_dispatch_decision p d (some e) a s).2.agency_guess
        = (fuse p d e a s (confPreEvidence p d)).2 := rfl
    unfold fuse at hkey
    rcases hg : fuseGate e with _ | ⟨ta, ts⟩
    · rw [hg] at hkey
      left
      refine ⟨hkey, fun e' he' => ?_⟩
      obtain rfl : e' = e := by injection he'.symm
      unfold overrideFires
      rw [hg]
    · rw [hg] at hkey
      simp only at hkey
      by_cases hcond : (a ≤ voteFrac e ∧ s ≤ ts) ∧ ¬ isVague p = true
          ∧ p.category ≠ some "unknown"
      · by_cases hta : ta ≠ d.agency_guess
        · right
          refine ⟨e, ta, ts, rfl, hg, ?_, ?_⟩
          · unfold overrideFires
            rw [hg]
            rw [Bool.and_eq_true]
            exact ⟨decide_eq_true hcond, decide_eq_true hta⟩
          · rw [hkey, if_pos hcond, if_pos hta]
        · left
          refine ⟨?_, fun e' he' => ?_⟩
          · rw [hkey, if_pos hcond, if_neg hta]
          · obtain rfl : e' = e := by injection he'.symm
            unfold overrideFires
            rw [hg]
            simp [hta]
      · left
        refine ⟨?_, fun e' he' => ?_⟩
        · rw [hkey, if_neg hcond]
        · obtain rfl : e' = e := by injection he'.symm
          have hov : overrideFires p d e' a s
              = (decide ((a ≤ voteFrac e' ∧ s ≤ ts) ∧ ¬ isVague p = true
                    ∧ p.category ≠ some "unknown")
                 && decide (ta ≠ d.agency_guess)) := by
            unfold overrideFires
            rw [hg]
          rw [hov, decide_eq_false hcond, Bool.false_and]

/-- Witness for C9: in an override scenario the returned draft has the
evidence's top agency; here the inner frame facts are checked on a concrete
run. -/
theorem draft_mutation_frame_witness :
    (build_dispatch_decision
        ⟨some "noise", none, none, none, some "02:00", none, some "loud party"⟩
        ⟨"NYPD", "medium", "x", some (55/100)⟩
        (some ⟨[("DEP", 3)], 3, some (62/100)⟩) (7/10) (62/100)).2.urgency_guess
      = "medium" :=
  (draft_mutation_frame
    ⟨some "noise", none, none, none, some "02:00", none, some "loud party"⟩
    ⟨"NYPD", "medium", "x", some (55/100)⟩
    (some ⟨[("DEP", 3)], 3, some (62/100)⟩) (7/10) (62/100)).1

/-! ### Claim C7 -/

theorem maxScore_cons (x : String × Nat) (l : List (String × Nat)) :
    maxScore (x :: l) = max x.2 (maxScore l) := rfl

/-- `pickTopGo` (the loop behind `max(d, key=d.get)`) returns the first entry
attaining the maximal value: its value is the maximum, and `find?` with the
"attains the maximum" predicate returns exactly it. -/
theorem pickTopGo_spec (xs : List (String × Nat)) : ∀ best : String × Nat,
    (pickTopGo best xs).2 = maxScore (best :: xs)
    ∧ (best :: xs).find? (fun x => decide (x.2 = maxScore (best :: xs)))
        = some (pickTopGo best xs) := by
  induction xs with
  | nil =>
    intro best
    refine ⟨?_, ?_⟩
    · simp [pickTopGo, maxScore]
    · simp [pickTopGo, maxScore, List.find?]
  | cons y ys ih =>
    intro best
    by_cases hlt : best.2 < y.2
    · obtain ⟨ih1, ih2⟩ := ih y
      have hM : maxScore (best :: y :: ys) = maxScore (y :: ys) := by
        rw [maxScore_cons, maxScore_cons]
        rw [maxScore_cons] at ih1
        omega
      have hgo : pickTopGo best (y :: ys) = pickTopGo y ys := by
        have heq : pickTopGo best (y :: ys)
            = if best.2 < y.2 then pickTopGo y ys else pickTopGo best ys := rfl
        rw [heq, if_pos hlt]
      refine ⟨?_, ?_⟩
      · rw [hgo, ih1, hM]
      · rw [hM, hgo]
        rw [List.find?_cons_of_neg, ih2]
        have hbest : best.2 ≠ maxScore (y :: ys) := by
          rw [maxScore_cons]
          omega
        simp [hbest]
    · obtain ⟨ih1, ih2⟩ := ih best
      have hyle : y.2 ≤ best.2 := by omega
      have hM : maxScore (best :: y :: ys) = maxScore (best :: ys) := by
        rw [maxScore_cons, maxScore_cons, maxScore_cons]
        omega
      have hgo : pickTopGo best (y :: ys) = pickTopGo best ys := by
        have heq : pickTopGo best (y :: ys)
            = if best.2 < y.2 then pickTopGo y ys else pickTopGo best ys := rfl
        rw [heq, if_neg hlt]
      refine ⟨?_, ?_⟩
      · rw [hgo, ih1, hM]
      · rw [hM, hgo]
        by_cases hbest : best.2 = maxScore (best :: ys)
        · have hfirst : (best :: y :: ys).find?
              (fun x => decide (x.2 = maxScore (best :: ys))) = some best :=
            List.find?_cons_of_pos _ (by simp [hbest])
          have hfirst2 : (best :: ys).find?
              (fun x => decide (x.2 = maxScore (best :: ys))) = some best :=
            List.find?_cons_of_pos _ (by simp [hbest])
          rw [hfirst]
          rw [hfirst2] at ih2
          exact ih2
        · have hy : y.2 ≠ maxScore (best :: ys) := by
            rw [maxScore_cons] at hbest ⊢
            omega
          rw [List.find?_cons_of_neg _ (by simp [hbest]),
              List.find?_cons_of_neg _ (by simp [hy])]
          rw [List.find?_cons_of_neg _ (by simp [hbest])] at ih2
          exact ih2

theorem pickTop_cons_spec (a : String × Nat) (l : List (String × Nat)) :
    pickTop (a :: l) = (a :: l).find? (fun x => decide (x.2 = maxScore (a :: l)))
    ∧ ∃ r, pickTop (a :: l) = some r ∧ r.2 = maxScore (a :: l) := by
  refine ⟨((pickTopGo_spec l a).2).symm, ⟨pickTopGo a l, rfl, (pickTopGo_spec l a).1⟩⟩

/-- The whole keyword-scoring stage, for any nonempty score list: the source's
`max`-then-positivity-check equals the spec-side "first entry attaining the
maximum, unknown when the maximum is 0" description. -/
theorem pickTop_stage (l : List (String × Nat)) (hne : l ≠ []) :
    (match pickTop l with
     | none => "unknown"
     | some (best, n) => if 0 < n then best else "unknown")
    = (if maxScore l = 0 then "unknown"
       else ((l.find? fun x => decide (x.2 = maxScore l)).map fun x => x.1).getD
          "unknown") := by
  cases l with
  | nil => exact absurd rfl hne
  | cons a l' =>
    obtain ⟨hfind, r, hr, hrval⟩ := pickTop_cons_spec a l'
    rw [hr, ← hfind, hr]
    simp only [Option.map_some', Option.getD_some]
    by_cases hm : maxScore (a :: l') = 0
    · rw [if_pos hm]
      have hn : ¬ 0 < r.2 := by omega
      exact if_neg hn
    · rw [if_neg hm]
      have hn : 0 < r.2 := by omega
      exact if_pos hn

/-- C7: `classify_category` evaluates its stages in fixed precedence — a
vague-only phrase with no environmental-hazard phrase yields "unknown";
otherwise any hazard, public-safety/crime or property-crime-in-progress signal
yields "safety"; otherwise the category with the highest whole-word keyword
count wins, ties broken by first position in the fixed category list, with a
best count of 0 yielding "unknown" (`specBestCategory`); and the two spec
examples hold. -/
theorem classify_category_precedence :
    (∀ t : String, hasAnySub (lowerL t.data) vagueOnlyPhrases = true →
        hasAnySub (lowerL t.data) environmentalKeywords = false →
        classify_category t = "unknown")
    ∧ (∀ t : String,
        (hasAnySub (lowerL t.data) vagueOnlyPhrases
          && !hasAnySub (lowerL t.data) environmentalKeywords) = false →
        (hasAnySub (lowerL t.data) environmentalKeywords
          || hasAnySub (lowerL t.data) publicSafetyKeywords
          || propertyInProgress (lowerL t.data)) = true →
        classify_category t = "safety")
    ∧ (∀ t : String,
        (hasAnySub (lowerL t.data) vagueOnlyPhrases
          && !hasAnySub (lowerL t.data) environmentalKeywords) = false →
        (hasAnySub (lowerL t.data) environmentalKeywords
          || hasAnySub (lowerL t.data) publicSafetyKeywords
          || propertyInProgress (lowerL t.data)) = false →
        classify_category t = specBestCategory (lowerL t.data))
    ∧ classify_category "gas leak smell in the hallway" = "safety"
    ∧ classify_category "not sure what this is, feels off" = "unknown" := by
  refine ⟨?_, ?_, ?_, by decide, by decide⟩
  · intro t hv he
    unfold classify_category classifyLowered
    rw [hv, he]
    simp
  · intro t h1 h2
    unfold classify_category classifyLowered
    rw [h1, h2]
    simp
  · intro t h1 h2
    unfold classify_category classifyLowered
    rw [h1, h2]
    simp only [Bool.false_eq_true, if_false]
    exact pickTop_stage (scoresOf (lowerL t.data)) (by simp [scoresOf, CATEGORY_KEYWORDS])

/-- Witness for C7: a concrete vague hazard-free text takes the first stage. -/
theorem classify_category_precedence_witness :
    hasAnySub (lowerL "maybe a vibe".data) vagueOnlyPhrases = true
    ∧ classify_category "maybe a vibe" = "unknown" :=
  ⟨by decide, classify_category_precedence.1 "maybe a vibe" (by decide) (by decide)⟩

/-! ### Claim C8 -/

theorem severityOf_eq_specSeverity (t : List Char) (c : String) (tm : Option String) :
    severityOf t c tm = specSeverity t c tm := by
  unfold severityOf specSeverity
  omega

/-- C8: `estimate_urgency` equals the claim's additive description
(`specUrgency`: +3 high signal, +2 medium signal, +2 property-crime heuristic,
+1 nighttime noise, +1 recurring, vague-only short-circuit, ≥3 → high,
≥2 → medium, else low); the night window test on a valid `HH:MM` string is
membership in [22:00, 23:59] ∪ [00:00, 05:00], inclusive at both ends —
"05:00" itself counts (the boundary flip from "05:00" to "05:01" changes the
result); and the spec example "shots fired near the park" is "high". -/
theorem estimate_urgency_spec :
    (∀ (t c : String) (tm : Option String), estimate_urgency t c tm = specUrgency t c tm)
    ∧ (∀ h : Nat, h < 24 → ∀ m : Nat, m < 60 →
        nightCheck [] (some (timeHM h m))
          = decide (1320 ≤ 60 * h + m ∨ 60 * h + m ≤ 300))
    ∧ estimate_urgency "loud music every day" "noise" (some "05:00") = "medium"
    ∧ estimate_urgency "loud music every day" "noise" (some "05:01") = "low"
    ∧ estimate_urgency "shots fired near the park" "safety" none = "high" := by
  refine ⟨?_, ?_, by decide, by decide, by decide⟩
  · intro t c tm
    unfold estimate_urgency specUrgency urgencyCore specUrgencyCore
    rw [severityOf_eq_specSeverity]
  · decide

/-- Witness for C8: the night-window characterization at 05:00 (counts) and
05:01 (does not). -/
theorem estimate_urgency_spec_witness :
    nightCheck [] (some (timeHM 5 0)) = decide (1320 ≤ 60 * 5 + 0 ∨ 60 * 5 + 0 ≤ 300)
    ∧ nightCheck [] (some (timeHM 5 1)) = decide (1320 ≤ 60 * 5 + 1 ∨ 60 * 5 + 1 ≤ 300) :=
  ⟨estimate_urgency_spec.2.1 5 (by decide) 0 (by decide),
   estimate_urgency_spec.2.1 5 (by decide) 1 (by decide)⟩

/-! ### Claim C4 -/

/-- C4 (counterexample): on the end-to-end input with agreeing strong evidence
(vote ratio 1.0, top score 0.62, top agency equal to the draft's guess), the
confirm branch yields final confidence min(0.75, 0.55 + 0.05) = 0.60, which is
not in [0.70, 0.80]. -/
theorem pipeline_confirm_counterexample :
    (build_dispatch_decision (executeParsed c4text) (executeDraft c4text)
        (some c4evidence) (7/10) (62/100)).1.confidence = 60/100
    ∧ ¬ ((70 : ℚ)/100 ≤ 60/100) := by
  constructor
  · with_unfolding_all rfl
  · norm_num

/-- C4 (amended): the pipeline on "loud party at 2am in Brooklyn, recurring
every weekend" extracts category "noise", time "02:00", location "Brooklyn";
with the agreeing strong evidence the confirm branch runs (the agency stays
the draft's guess) and the final confidence is 0.60, with `needs_review`
false. -/
theorem pipeline_confirm_facts :
    classify_category c4text = "noise"
    ∧ extract_time c4text = some "02:00"
    ∧ extract_location c4text = some "Brooklyn"
    ∧ (executeDraft c4text).agency_guess = "Noise Control / Non-emergency Police"
    ∧ confirmFires (executeParsed c4text) (executeDraft c4text) c4evidence
        (7/10) (62/100) = true
    ∧ (build_dispatch_decision (executeParsed c4text) (executeDraft c4text)
        (some c4evidence) (7/10) (62/100)).1.confidence = 60/100
    ∧ (build_dispatch_decision (executeParsed c4text) (executeDraft c4text)
        (some c4evidence) (7/10) (62/100)).1.agency
        = "Noise Control / Non-emergency Police"
    ∧ needsReview (executeParsed c4text)
        ((build_dispatch_decision (executeParsed c4text) (executeDraft c4text)
          (some c4evidence) (7/10) (62/100)).1.confidence) = false := by
  refine ⟨by decide, by decide, by decide, by decide, ?_, ?_, ?_, ?_⟩
  · with_unfolding_all rfl
  · with_unfolding_all rfl
  · with_unfolding_all rfl
  · with_unfolding_all rfl

end Dispatch

